import Mathlib

/-!
Verification of the Green Wall irrigation controller
(`src/green_wall_code.ino`).

The sketch is a single sequential loop over a mutable global state `GW`
(struct `Green_Wall_state`) plus hardware side effects: the pump relay pin,
the serial log and the LCD.  We embed the state as a record, each hardware
write as an explicit field update or an appended log event, and every loop
body function as a pure state transformer taking the external inputs
(clock value, sensor readings, rain analog value) as arguments.

The time arithmetic comes from the RTClib `DateTime`/`TimeSpan` classes the
sketch calls into:
  * `operator<` compares the six calendar fields lexicographically and
    `operator>=` is its negation;
  * `operator+ (TimeSpan)` goes through `unixtime()` (seconds since 1970,
    computed via `date2days`/`time2ulong` with the library's year-2000-based
    leap rule `y % 4 == 0`) and back through the `DateTime(uint32_t)`
    constructor (div/mod for the time of day, then a year-subtraction loop
    and a month-subtraction loop for the date).
We embed those routines field by field over `Nat`.  The constant 1970-2000
offset added by `unixtime` and subtracted again by `DateTime(uint32_t)`
cancels, so the embedding works directly in seconds since 2000-01-01
00:00:00 (`secondstime` in the library); theorems that need freedom from
`uint32_t` overflow carry explicit bounds (`yOff ≤ 99`, duration at most a
year of minutes), under which every intermediate value fits in 32 bits.

Float values (`humidity`, `temperatureC`) are only ever stored, displayed
and tested with `isnan` — the sketch does no float arithmetic — so they are
modelled as `Option ℚ` with `none` standing for NaN.
-/

namespace GreenWall

/-- RTClib `DateTime`: years since 2000 (`yOff`), month `1..12`, day of
month `1..31`, hour, minute, second. -/
structure DateTime where
  yOff : Nat
  m : Nat
  d : Nat
  hh : Nat
  mm : Nat
  ss : Nat
deriving DecidableEq

/-- RTClib `DateTime::operator<`: lexicographic comparison of the six
calendar fields. -/
def dtLt (a b : DateTime) : Bool :=
  decide (a.yOff < b.yOff) ||
    (decide (a.yOff = b.yOff) &&
      (decide (a.m < b.m) ||
        (decide (a.m = b.m) &&
          (decide (a.d < b.d) ||
            (decide (a.d = b.d) &&
              (decide (a.hh < b.hh) ||
                (decide (a.hh = b.hh) &&
                  (decide (a.mm < b.mm) ||
                    (decide (a.mm = b.mm) && decide (a.ss < b.ss))))))))))

/-- RTClib `DateTime::operator>=`, defined as the negation of `<`. -/
def dtGe (a b : DateTime) : Bool := !(dtLt a b)

/-- RTClib `daysInMonth` table: days of each month of a non-leap year. -/
def daysPerMonthTable : List Nat := [31, 28, 31, 30, 31, 30, 31, 31, 30, 31, 30, 31]

/-- Zero-based lookup into `daysInMonth` (`pgm_read_byte(daysInMonth + i)`). -/
def daysInMonthArr (i : Nat) : Nat := daysPerMonthTable.getD i 0

/-- RTClib leap-year rule for years since 2000: leap iff `y % 4 == 0`
(1 for leap, 0 otherwise). -/
def leapN (y : Nat) : Nat := if y % 4 = 0 then 1 else 0

/-- The `for (i = 1; i < m; ++i) days += daysInMonth[i - 1]` accumulation in
RTClib `date2days`: days of the months strictly before month `m`. -/
def monthDaysBefore (m : Nat) : Nat :=
  ((List.range (m - 1)).map (fun i => daysInMonthArr i)).sum

/-- RTClib `date2days(y, m, d)`: day number of the date counted from
2000-01-01 = day 0, with the leap day added for `m > 2 && y % 4 == 0` and
the year prefix `365 * y + (y + 3) / 4`. -/
def date2days (y m d : Nat) : Nat :=
  d + monthDaysBefore m + (if 2 < m ∧ y % 4 = 0 then 1 else 0)
    + 365 * y + (y + 3) / 4 - 1

/-- RTClib `time2ulong(days, h, m, s) = ((days * 24 + h) * 60 + m) * 60 + s`. -/
def time2long (days h m s : Nat) : Nat := ((days * 24 + h) * 60 + m) * 60 + s

/-- RTClib `secondstime()`: seconds since 2000-01-01 00:00:00
(`unixtime()` minus the constant 1970-2000 offset). -/
def secs2000 (t : DateTime) : Nat :=
  time2long (date2days t.yOff t.m t.d) t.hh t.mm t.ss

/-- Second of the day of a `DateTime` (not an RTClib routine; used to state
specifications). -/
def secOfDay (t : DateTime) : Nat := t.hh * 3600 + t.mm * 60 + t.ss

/-- The year loop of the RTClib `DateTime(uint32_t)` constructor:
`for (yOff = 0;; ++yOff) { leap = yOff % 4 == 0; if (days < 365 + leap) break;
days -= 365 + leap; }`.  The loop consumes at least 365 days per iteration,
so fuel `days + 1` always suffices; the fuel-0 branch is never reached. -/
def yearLoop : Nat → Nat → Nat → Nat × Nat
  | 0, y, days => (y, days)
  | fuel + 1, y, days =>
      if days < 365 + leapN y then (y, days)
      else yearLoop fuel (y + 1) (days - (365 + leapN y))

/-- The month loop of the RTClib `DateTime(uint32_t)` constructor:
`for (m = 1; m < 12; ++m) { daysPerMonth = daysInMonth[m - 1];
if (leap && m == 2) ++daysPerMonth; if (days < daysPerMonth) break;
days -= daysPerMonth; }`, run with fuel 11 (the loop guard `m < 12`). -/
def monthLoop (lp : Nat) : Nat → Nat → Nat → Nat × Nat
  | 0, m, days => (m, days)
  | fuel + 1, m, days =>
      if days < daysInMonthArr (m - 1) + (if m = 2 then lp else 0) then (m, days)
      else monthLoop lp fuel (m + 1)
        (days - (daysInMonthArr (m - 1) + (if m = 2 then lp else 0)))

/-- RTClib `DateTime(uint32_t)` constructor with the 1970-2000 offset
already removed: decompose seconds since 2000 into calendar fields. -/
def fromSecs (n : Nat) : DateTime :=
  let ss := n % 60
  let mm := (n / 60) % 60
  let hh := (n / 3600) % 24
  let days := n / 86400
  let yr := yearLoop (days + 1) 0 days
  let lp := leapN yr.1
  let md := monthLoop lp 11 1 yr.2
  ⟨yr.1, md.1, md.2 + 1, hh, mm, ss⟩

/-- RTClib `DateTime::operator+(TimeSpan)`:
`DateTime(unixtime() + span.totalseconds())`; the constant 1970 offset
cancels, leaving addition in seconds since 2000. -/
def dtAddSecs (t : DateTime) (s : Nat) : DateTime := fromSecs (secs2000 t + s)

/-- RTClib `TimeSpan(0, 0, minutes, 0).totalseconds() = minutes * 60`. -/
def timeSpanMinutesSecs (minutes : Nat) : Nat := minutes * 60

/-- The `DateTime startTime(currentTime.year(), currentTime.month(),
currentTime.day(), startHour, 0, 0)` built by `isInWateringWindow`:
the current date with time of day `startHour:00:00`. -/
def windowStart (t : DateTime) (startHour : Nat) : DateTime :=
  ⟨t.yOff, t.m, t.d, startHour, 0, 0⟩

/-- The `endTime = startTime + duration` of `isInWateringWindow`. -/
def windowEnd (t : DateTime) (startHour durationMinutes : Nat) : DateTime :=
  dtAddSecs (windowStart t startHour) (timeSpanMinutesSecs durationMinutes)

/-- Sketch `isInWateringWindow(currentTime, startHour, durationMinutes)`:
`currentTime >= startTime && currentTime < endTime` with `startTime` at the
current date and `endTime = startTime + TimeSpan(0, 0, durationMinutes, 0)`. -/
def isInWateringWindow (currentTime : DateTime) (startHour durationMinutes : Nat) : Bool :=
  dtGe currentTime (windowStart currentTime startHour) &&
    dtLt currentTime (windowEnd currentTime startHour durationMinutes)

/-- Validity of the calendar fields of a `DateTime`: month `1..12`, day
within the month (RTClib leap rule), time of day in range. -/
def dtFieldsValid (t : DateTime) : Prop :=
  1 ≤ t.m ∧ t.m ≤ 12 ∧ 1 ≤ t.d ∧
    t.d ≤ daysInMonthArr (t.m - 1) + (if t.m = 2 ∧ t.yOff % 4 = 0 then 1 else 0) ∧
    t.hh < 24 ∧ t.mm < 60 ∧ t.ss < 60

instance (t : DateTime) : Decidable (dtFieldsValid t) := by
  unfold dtFieldsValid; infer_instance

/-- Validity including the year range 2000..2099 the RTC library supports
(under which `unixtime` plus a year of seconds stays below `2 ^ 32`). -/
def dtValid (t : DateTime) : Prop := dtFieldsValid t ∧ t.yOff ≤ 99

instance (t : DateTime) : Decidable (dtValid t) := by
  unfold dtValid; infer_instance

/-- Float value of the sketch: only stored, displayed and tested with
`isnan`, so modelled as `Option ℚ` with `none` for NaN. -/
abbrev FloatVal : Type := Option ℚ

/-- C `isnan` on the modelled float values. -/
def isnan (v : FloatVal) : Bool := v.isNone

/-- The float literal `0` initializing `humidity` and `temperatureC`. -/
def floatZero : FloatVal := some 0

/-- Struct `Green_Wall_state`: pump flag, current time, last sensor
readings, the three watering start hours and the shared duration.  The
hour and duration fields are C `int`s that only ever hold the non-negative
configured literals, so they are embedded as `Nat`. -/
structure Green_Wall_state where
  isPumpWorking : Bool
  currentDateTime : DateTime
  humidity : FloatVal
  temperatureC : FloatVal
  morningWateringDateTime : Nat
  middleWateringDateTime : Nat
  eveningWateringDateTime : Nat
  minutesOfWateringDuration : Nat
deriving DecidableEq

/-- One line of serial output (`Serial.println` / `Serial.printf`),
identified by which call site emitted it and the data it carried. -/
inductive SerialMsg where
  | timeMsg (t : DateTime)
  | dhtMsg (humidity temperatureC : FloatVal)
  | dhtFailMsg
  | rainMsg (rainValue : Nat)
deriving DecidableEq

/-- The whole observable machine state: the global `GW` struct, the level
last written to `PUMP_RELAY_SIGNAL_PIN` (`true` = HIGH = pump energized),
the serial log, and the two LCD rows (`none` = still showing the startup
banner). -/
structure SysState where
  GW : Green_Wall_state
  pumpPin : Bool
  serial : List SerialMsg
  lcdRow0 : Option DateTime
  lcdRow1 : Option (FloatVal × FloatVal)
deriving DecidableEq

/-- Global `bool PresentationMode = true;`. -/
def PresentationMode : Bool := true

/-- Sketch `isRainGoing()`: `return false;` — the stubbed rain indicator. -/
def isRainGoing : Bool := false

/-- Sketch `PumpOn()`: `digitalWrite(PUMP_RELAY_SIGNAL_PIN, HIGH)`. -/
def PumpOn (s : SysState) : SysState := { s with pumpPin := true }

/-- Sketch `PumpOff()`: `digitalWrite(PUMP_RELAY_SIGNAL_PIN, LOW)`. -/
def PumpOff (s : SysState) : SysState := { s with pumpPin := false }

/-- Sketch `managePumpPresentationMode()`: pump on for seconds 0..4 of each
10-second interval of `GW.currentDateTime`, off for seconds 5..9. -/
def managePumpPresentationMode (s : SysState) : SysState :=
  let sec_mod := s.GW.currentDateTime.ss % 10
  if sec_mod < 5 then PumpOn s else PumpOff s

/-- Sketch `DecideIfWateringRequired()`: evaluate the three watering
windows at the current time and store their disjunction in
`GW.isPumpWorking`. -/
def DecideIfWateringRequired (s : SysState) : SysState :=
  let morningWindow := isInWateringWindow s.GW.currentDateTime
    s.GW.morningWateringDateTime s.GW.minutesOfWateringDuration
  let middleWindow := isInWateringWindow s.GW.currentDateTime
    s.GW.middleWateringDateTime s.GW.minutesOfWateringDuration
  let eveningWindow := isInWateringWindow s.GW.currentDateTime
    s.GW.eveningWateringDateTime s.GW.minutesOfWateringDuration
  { s with GW := { s.GW with isPumpWorking := morningWindow || middleWindow || eveningWindow } }

/-- Body of sketch `managePump()` with the value returned by the
`isRainGoing()` call made explicit: when raining, clear `GW.isPumpWorking`
and return at once (no `digitalWrite`); otherwise decide and drive the
relay to match the stored flag. -/
def managePumpWith (rain : Bool) (s : SysState) : SysState :=
  if rain then { s with GW := { s.GW with isPumpWorking := false } }
  else
    let s1 := DecideIfWateringRequired s
    if s1.GW.isPumpWorking then PumpOn s1 else PumpOff s1

/-- Sketch `managePump()`: the body above applied to the actual
`isRainGoing()` result. -/
def managePump (s : SysState) : SysState := managePumpWith isRainGoing s

/-- Sketch `readAndDisplayCurrentTime()`: fetch `now` from the RTC (here an
input), render it on LCD row 0 and serial, and store it in
`GW.currentDateTime`. -/
def readAndDisplayCurrentTime (s : SysState) (now : DateTime) : SysState :=
  { s with
      GW := { s.GW with currentDateTime := now }
      serial := s.serial ++ [SerialMsg.timeMsg now]
      lcdRow0 := some now }

/-- Sketch `readAndDisplayDHT11()`: read humidity and temperature (here
inputs); if either is NaN only log the failure, otherwise display both and
store both in `GW`. -/
def readAndDisplayDHT11 (s : SysState) (humidity temperatureC : FloatVal) : SysState :=
  if isnan temperatureC || isnan humidity then
    { s with serial := s.serial ++ [SerialMsg.dhtFailMsg] }
  else
    { s with
        GW := { s.GW with humidity := humidity, temperatureC := temperatureC }
        serial := s.serial ++ [SerialMsg.dhtMsg humidity temperatureC]
        lcdRow1 := some (humidity, temperatureC) }

/-- Sketch `readAndDisplayRainSensor()`: read the analog value (here an
input) and log it; nothing else. -/
def readAndDisplayRainSensor (s : SysState) (rainValue : Nat) : SysState :=
  { s with serial := s.serial ++ [SerialMsg.rainMsg rainValue] }

/-- The state right after `setup()`: relay forced LOW, configured hours
6/13/21, duration 5 minutes, `isPumpWorking = false`, float fields at their
struct initializers `0`, `currentDateTime` at the RTClib default
2000-01-01 00:00:00, welcome banner on the LCD. -/
def setupState : SysState :=
  { GW :=
      { isPumpWorking := false
        currentDateTime := ⟨0, 1, 1, 0, 0, 0⟩
        humidity := floatZero
        temperatureC := floatZero
        morningWateringDateTime := 6
        middleWateringDateTime := 13
        eveningWateringDateTime := 21
        minutesOfWateringDuration := 5 }
    pumpPin := false
    serial := []
    lcdRow0 := none
    lcdRow1 := none }

/-- One iteration of `loop()`: read the clock, manage the pump in the mode
selected by `PresentationMode`, read the DHT11, read the rain sensor. -/
def loopIter (s : SysState) (now : DateTime) (humidity temperatureC : FloatVal)
    (rainValue : Nat) : SysState :=
  readAndDisplayRainSensor
    (readAndDisplayDHT11
      ((if PresentationMode then managePumpPresentationMode else managePump)
        (readAndDisplayCurrentTime s now))
      humidity temperatureC)
    rainValue

/-- States reachable from `setup()` by iterating `loop()` with arbitrary
external inputs. -/
inductive Reach : SysState → Prop where
  | setup : Reach setupState
  | step (s : SysState) (now : DateTime) (humidity temperatureC : FloatVal)
      (rainValue : Nat) : Reach s → Reach (loopIter s now humidity temperatureC rainValue)

/-- Specification-level watering-window membership, written from the spec
wording: `start <= currentTime < end` with `start` at the current date and
hour `H` and `end` equal to `start` plus `D` minutes, compared as seconds
since 2000. -/
def inWindowSpec (t : DateTime) (H D : Nat) : Prop :=
  secs2000 (windowStart t H) ≤ secs2000 t ∧
    secs2000 t < secs2000 (windowStart t H) + 60 * D

instance (t : DateTime) (H D : Nat) : Decidable (inWindowSpec t H D) := by
  unfold inWindowSpec; infer_instance

/-! ### Arithmetic facts about the RTClib embedding -/

theorem monthDaysBefore_vals :
    monthDaysBefore 1 = 0 ∧ monthDaysBefore 2 = 31 ∧ monthDaysBefore 3 = 59 ∧
      monthDaysBefore 4 = 90 ∧ monthDaysBefore 5 = 120 ∧ monthDaysBefore 6 = 151 ∧
      monthDaysBefore 7 = 181 ∧ monthDaysBefore 8 = 212 ∧ monthDaysBefore 9 = 243 ∧
      monthDaysBefore 10 = 273 ∧ monthDaysBefore 11 = 304 ∧ monthDaysBefore 12 = 334 := by
  decide

theorem daysInMonthArr_vals :
    daysInMonthArr 0 = 31 ∧ daysInMonthArr 1 = 28 ∧ daysInMonthArr 2 = 31 ∧
      daysInMonthArr 3 = 30 ∧ daysInMonthArr 4 = 31 ∧ daysInMonthArr 5 = 30 ∧
      daysInMonthArr 6 = 31 ∧ daysInMonthArr 7 = 31 ∧ daysInMonthArr 8 = 30 ∧
      daysInMonthArr 9 = 31 ∧ daysInMonthArr 10 = 30 ∧ daysInMonthArr 11 = 31 := by
  decide

theorem leapN_le (y : Nat) : leapN y ≤ 1 := by
  unfold leapN; split <;> omega

/-- Day number of January 1 of year `y` (years since 2000):
`date2days y 1 1`, in closed form. -/
def yearStartDays (y : Nat) : Nat := 365 * y + (y + 3) / 4

theorem yearStartDays_succ (y : Nat) :
    yearStartDays (y + 1) = yearStartDays y + 365 + leapN y := by
  unfold yearStartDays leapN; split <;> omega

theorem yearStartDays_mono {y y' : Nat} (h : y ≤ y') :
    yearStartDays y ≤ yearStartDays y' := by
  unfold yearStartDays
  have h1 : 365 * y ≤ 365 * y' := Nat.mul_le_mul_left 365 h
  have h2 : (y + 3) / 4 ≤ (y' + 3) / 4 := Nat.div_le_div_right (by omega)
  omega

/-- Bounds on the day-of-year part of `date2days` for a valid date. -/
theorem doy_bounds (y m d : Nat) (h1 : 1 ≤ m) (h2 : m ≤ 12) (h3 : 1 ≤ d)
    (h4 : d ≤ daysInMonthArr (m - 1) + (if m = 2 ∧ y % 4 = 0 then 1 else 0)) :
    1 ≤ d + monthDaysBefore m + (if 2 < m ∧ y % 4 = 0 then 1 else 0) ∧
      d + monthDaysBefore m + (if 2 < m ∧ y % 4 = 0 then 1 else 0) ≤ 365 + leapN y := by
  unfold leapN
  interval_cases m <;>
    simp [monthDaysBefore, daysInMonthArr, daysPerMonthTable, List.range_succ] at h4 ⊢ <;>
    split_ifs at h4 ⊢ <;> omega

/-- For a valid date, `date2days` lies within the days of its own year. -/
theorem date2days_bounds (y m d : Nat) (h1 : 1 ≤ m) (h2 : m ≤ 12) (h3 : 1 ≤ d)
    (h4 : d ≤ daysInMonthArr (m - 1) + (if m = 2 ∧ y % 4 = 0 then 1 else 0)) :
    yearStartDays y ≤ date2days y m d ∧
      date2days y m d < yearStartDays (y + 1) := by
  have hd := doy_bounds y m d h1 h2 h3 h4
  have hs := yearStartDays_succ y
  unfold date2days
  unfold yearStartDays at *
  omega

theorem monthDaysBefore_succ (m : Nat) (h : 1 ≤ m) :
    monthDaysBefore (m + 1) = monthDaysBefore m + daysInMonthArr (m - 1) := by
  obtain ⟨k, rfl⟩ : ∃ k, m = k + 1 := ⟨m - 1, by omega⟩
  unfold monthDaysBefore
  simp [List.range_succ]

/-- A valid day of month `m` comes strictly before day 1 of month `m + 1`
in day-of-year position. -/
theorem doy_step (y m d : Nat) (h1 : 1 ≤ m)
    (h4 : d ≤ daysInMonthArr (m - 1) + (if m = 2 ∧ y % 4 = 0 then 1 else 0)) :
    d + monthDaysBefore m + (if 2 < m ∧ y % 4 = 0 then 1 else 0) <
      1 + monthDaysBefore (m + 1) + (if 2 < m + 1 ∧ y % 4 = 0 then 1 else 0) := by
  have hs := monthDaysBefore_succ m h1
  split_ifs at h4 ⊢ <;> omega

/-- The month-prefix part of the day-of-year is monotone in the month. -/
theorem doyMonthPart_mono (y : Nat) (m m' : Nat) (h1 : 1 ≤ m) (h2 : m ≤ m') :
    monthDaysBefore m + (if 2 < m ∧ y % 4 = 0 then 1 else 0) ≤
      monthDaysBefore m' + (if 2 < m' ∧ y % 4 = 0 then 1 else 0) := by
  induction m' with
  | zero => omega
  | succ k ih =>
      rcases Nat.lt_or_ge m (k + 1) with hlt | hge
      · have hk : 1 ≤ k := by omega
        have hstep := monthDaysBefore_succ k hk
        have := ih (by omega)
        split_ifs at this ⊢ <;> omega
      · have : m = k + 1 := by omega
        subst this
        omega

/-- The day-of-year part of `date2days` is strictly monotone in the
lexicographic order of valid `(month, day)` pairs. -/
theorem doy_lt_doy (y m d m' d' : Nat) (h1 : 1 ≤ m) (h2 : m ≤ 12) (_h3 : 1 ≤ d)
    (h4 : d ≤ daysInMonthArr (m - 1) + (if m = 2 ∧ y % 4 = 0 then 1 else 0))
    (h1' : 1 ≤ m') (h2' : m' ≤ 12) (h3' : 1 ≤ d')
    (hlex : m < m' ∨ (m = m' ∧ d < d')) :
    d + monthDaysBefore m + (if 2 < m ∧ y % 4 = 0 then 1 else 0) <
      d' + monthDaysBefore m' + (if 2 < m' ∧ y % 4 = 0 then 1 else 0) := by
  rcases hlex with hm | ⟨rfl, hd⟩
  · have hstep := doy_step y m d h1 h4
    have hmono := doyMonthPart_mono y (m + 1) m' (by omega) hm
    omega
  · omega

/-- `date2days` is strictly monotone in the lexicographic order of valid
dates. -/
theorem date2days_lt_date2days (y m d y' m' d' : Nat)
    (h1 : 1 ≤ m) (h2 : m ≤ 12) (h3 : 1 ≤ d)
    (h4 : d ≤ daysInMonthArr (m - 1) + (if m = 2 ∧ y % 4 = 0 then 1 else 0))
    (h1' : 1 ≤ m') (h2' : m' ≤ 12) (h3' : 1 ≤ d')
    (h4' : d' ≤ daysInMonthArr (m' - 1) + (if m' = 2 ∧ y' % 4 = 0 then 1 else 0))
    (hlex : y < y' ∨ (y = y' ∧ (m < m' ∨ (m = m' ∧ d < d')))) :
    date2days y m d < date2days y' m' d' := by
  rcases hlex with hy | ⟨rfl, hmd⟩
  · have hb := date2days_bounds y m d h1 h2 h3 h4
    have hb' := date2days_bounds y' m' d' h1' h2' h3' h4'
    have hmono := yearStartDays_mono (show y + 1 ≤ y' by omega)
    omega
  · have hd := doy_lt_doy y m d m' d' h1 h2 h3 h4 h1' h2' h3' hmd
    unfold date2days
    omega

theorem secs2000_decomp (t : DateTime) :
    secs2000 t = date2days t.yOff t.m t.d * 86400 + secOfDay t := by
  unfold secs2000 time2long secOfDay
  omega

theorem secOfDay_lt (t : DateTime) (hv : dtFieldsValid t) : secOfDay t < 86400 := by
  obtain ⟨_, _, _, _, hh, hm, hs⟩ := hv
  unfold secOfDay
  omega

/-- The lexicographic `DateTime::operator<` unfolded to a proposition. -/
theorem dtLt_eq_true_iff (a b : DateTime) :
    dtLt a b = true ↔
      (a.yOff < b.yOff ∨ (a.yOff = b.yOff ∧
        (a.m < b.m ∨ (a.m = b.m ∧
          (a.d < b.d ∨ (a.d = b.d ∧
            (a.hh < b.hh ∨ (a.hh = b.hh ∧
              (a.mm < b.mm ∨ (a.mm = b.mm ∧ a.ss < b.ss)))))))))) := by
  unfold dtLt
  simp [Bool.or_eq_true, Bool.and_eq_true, decide_eq_true_eq]

/-- On valid field values, the library's lexicographic comparison agrees
with comparison of seconds since 2000 (soundness direction). -/
theorem secs2000_lt_of_dtLt (a b : DateTime) (ha : dtFieldsValid a) (hb : dtFieldsValid b)
    (h : dtLt a b = true) : secs2000 a < secs2000 b := by
  rw [dtLt_eq_true_iff] at h
  obtain ⟨ha1, ha2, ha3, ha4, ha5, ha6, ha7⟩ := ha
  obtain ⟨hb1, hb2, hb3, hb4, hb5, hb6, hb7⟩ := hb
  rw [secs2000_decomp a, secs2000_decomp b]
  have hsa := secOfDay_lt a ⟨ha1, ha2, ha3, ha4, ha5, ha6, ha7⟩
  have hsb := secOfDay_lt b ⟨hb1, hb2, hb3, hb4, hb5, hb6, hb7⟩
  rcases h with hy | ⟨hy, hrest⟩
  · have hdays := date2days_lt_date2days a.yOff a.m a.d b.yOff b.m b.d
      ha1 ha2 ha3 ha4 hb1 hb2 hb3 hb4 (Or.inl hy)
    omega
  · rcases hrest with hm | ⟨hm, hrest⟩
    · have hdays := date2days_lt_date2days a.yOff a.m a.d b.yOff b.m b.d
        ha1 ha2 ha3 ha4 hb1 hb2 hb3 hb4 (Or.inr ⟨hy, Or.inl hm⟩)
      omega
    · rcases hrest with hd | ⟨hd, htime⟩
      · have hdays := date2days_lt_date2days a.yOff a.m a.d b.yOff b.m b.d
          ha1 ha2 ha3 ha4 hb1 hb2 hb3 hb4 (Or.inr ⟨hy, Or.inr ⟨hm, hd⟩⟩)
        omega
      · have hdd : date2days a.yOff a.m a.d = date2days b.yOff b.m b.d := by
          rw [hy, hm, hd]
        unfold secOfDay at *
        omega

/-- Lexicographic trichotomy for `DateTime` comparison. -/
theorem dtLt_total (a b : DateTime) (hf : dtLt a b = false) :
    dtLt b a = true ∨
      (a.yOff = b.yOff ∧ a.m = b.m ∧ a.d = b.d ∧
        a.hh = b.hh ∧ a.mm = b.mm ∧ a.ss = b.ss) := by
  rw [Bool.eq_false_iff, Ne, dtLt_eq_true_iff] at hf
  rw [dtLt_eq_true_iff]
  omega

/-- On valid field values, `DateTime::operator<` holds exactly when the
seconds since 2000 compare the same way. -/
theorem dtLt_iff_secs (a b : DateTime) (ha : dtFieldsValid a) (hb : dtFieldsValid b) :
    dtLt a b = true ↔ secs2000 a < secs2000 b := by
  constructor
  · exact secs2000_lt_of_dtLt a b ha hb
  · intro hlt
    cases hcmp : dtLt a b with
    | true => rfl
    | false =>
        exfalso
        rcases dtLt_total a b hcmp with hba | ⟨h1, h2, h3, h4, h5, h6⟩
        · have := secs2000_lt_of_dtLt b a hb ha hba
          omega
        · have : secs2000 a = secs2000 b := by
            unfold secs2000 time2long
            rw [h1, h2, h3, h4, h5, h6]
          omega

/-- Invariant of the year loop of the `DateTime(uint32_t)` constructor:
it splits a day count into a year and a remaining day of year. -/
theorem yearLoop_spec (fuel : Nat) :
    ∀ y0 d0, d0 < fuel →
      yearStartDays y0 + d0 =
          yearStartDays (yearLoop fuel y0 d0).1 + (yearLoop fuel y0 d0).2 ∧
        (yearLoop fuel y0 d0).2 < 365 + leapN (yearLoop fuel y0 d0).1 := by
  induction fuel with
  | zero => intro y0 d0 h; omega
  | succ fuel ih =>
      intro y0 d0 h
      unfold yearLoop
      split
      · exact ⟨rfl, by assumption⟩
      · rename_i hge
        have hl := leapN_le y0
        have hrec := ih (y0 + 1) (d0 - (365 + leapN y0)) (by omega)
        have hsucc := yearStartDays_succ y0
        omega

/-- Invariant of the month loop of the `DateTime(uint32_t)` constructor:
it splits a day of year into a month and a remaining day of month. -/
theorem monthLoop_spec (lp : Nat) (fuel : Nat) :
    ∀ m0 d0, 1 ≤ m0 → m0 + fuel = 12 →
      monthDaysBefore m0 + (if 2 < m0 then lp else 0) + d0 =
          monthDaysBefore (monthLoop lp fuel m0 d0).1 +
            (if 2 < (monthLoop lp fuel m0 d0).1 then lp else 0) +
            (monthLoop lp fuel m0 d0).2 ∧
        m0 ≤ (monthLoop lp fuel m0 d0).1 ∧ (monthLoop lp fuel m0 d0).1 ≤ 12 ∧
        ((monthLoop lp fuel m0 d0).2 <
            daysInMonthArr ((monthLoop lp fuel m0 d0).1 - 1) +
              (if (monthLoop lp fuel m0 d0).1 = 2 then lp else 0) ∨
          (monthLoop lp fuel m0 d0).1 = 12) := by
  induction fuel with
  | zero =>
      intro m0 d0 h1 h2
      exact ⟨rfl, Nat.le_refl _, show m0 ≤ 12 by omega, Or.inr (show m0 = 12 by omega)⟩
  | succ fuel ih =>
      intro m0 d0 h1 h2
      have hA : monthLoop lp (fuel + 1) m0 d0 =
          if d0 < daysInMonthArr (m0 - 1) + (if m0 = 2 then lp else 0) then (m0, d0)
          else monthLoop lp fuel (m0 + 1)
            (d0 - (daysInMonthArr (m0 - 1) + (if m0 = 2 then lp else 0))) := rfl
      rcases Nat.lt_or_ge d0 (daysInMonthArr (m0 - 1) + (if m0 = 2 then lp else 0)) with hlt | hge
      · rw [hA, if_pos hlt]
        exact ⟨rfl, Nat.le_refl _, show m0 ≤ 12 by omega, Or.inl hlt⟩
      · rw [hA, if_neg (Nat.not_lt.mpr hge)]
        have hrec := ih (m0 + 1) (d0 - (daysInMonthArr (m0 - 1) + (if m0 = 2 then lp else 0)))
          (by omega) (by omega)
        have hsucc := monthDaysBefore_succ m0 h1
        refine ⟨?_, by omega, by omega, hrec.2.2.2⟩
        have heq := hrec.1
        split_ifs at heq hge ⊢ <;> omega

/-- The `DateTime(uint32_t)` constructor produces a valid date and is a
right inverse of `secondstime`; its date part is the day count `n / 86400`. -/
theorem fromSecs_spec (n : Nat) :
    dtFieldsValid (fromSecs n) ∧ secs2000 (fromSecs n) = n ∧
      date2days (fromSecs n).yOff (fromSecs n).m (fromSecs n).d = n / 86400 := by
  obtain ⟨hYeq, hYlt⟩ := yearLoop_spec (n / 86400 + 1) 0 (n / 86400) (Nat.lt_succ_self _)
  obtain ⟨hMeq, hMge, hMle, hMbd⟩ :=
    monthLoop_spec (leapN (yearLoop (n / 86400 + 1) 0 (n / 86400)).1) 11 1
      (yearLoop (n / 86400 + 1) 0 (n / 86400)).2 (by omega) (by omega)
  set Y := (yearLoop (n / 86400 + 1) 0 (n / 86400)).1 with hYdef
  set REM := (yearLoop (n / 86400 + 1) 0 (n / 86400)).2 with hRdef
  set M := (monthLoop (leapN Y) 11 1 REM).1 with hMdef
  set DD := (monthLoop (leapN Y) 11 1 REM).2 with hDdef
  have hF : fromSecs n = ⟨Y, M, DD + 1, n / 3600 % 24, n / 60 % 60, n % 60⟩ := rfl
  have hmdb1 : monthDaysBefore 1 = 0 := by decide
  have hmdb12 : monthDaysBefore 12 = 334 := by decide
  have harr11 : daysInMonthArr 11 = 31 := by decide
  have hlp := leapN_le Y
  have hlpdef : leapN Y = if Y % 4 = 0 then 1 else 0 := rfl
  have hD2D : date2days Y M (DD + 1) = n / 86400 := by
    unfold date2days
    unfold yearStartDays at hYeq
    rw [hlpdef] at hMeq
    rw [hmdb1] at hMeq
    split_ifs at hMeq ⊢ <;> omega
  have hday : DD + 1 ≤ daysInMonthArr (M - 1) + (if M = 2 ∧ Y % 4 = 0 then 1 else 0) := by
    rcases hMbd with hb | h12
    · rw [hlpdef] at hb
      split_ifs at hb ⊢ <;> omega
    · rw [h12] at hMeq ⊢
      rw [hlpdef] at hMeq hYlt
      rw [hmdb1, hmdb12] at hMeq
      rw [harr11]
      split_ifs at hMeq hYlt ⊢ <;> omega
  refine ⟨?_, ?_, ?_⟩
  · rw [hF]
    unfold dtFieldsValid
    dsimp only
    exact ⟨by omega, by omega, by omega, hday, by omega, by omega, by omega⟩
  · rw [hF]
    unfold secs2000 time2long
    dsimp only
    have hdd : date2days Y M (DD + 1) = n / 86400 := hD2D
    rw [hdd]
    have h1 : n / 3600 / 24 = n / 86400 := by
      rw [Nat.div_div_eq_div_mul]
    have h2 : n / 60 / 60 = n / 3600 := by
      rw [Nat.div_div_eq_div_mul]
    omega
  · rw [hF]
    exact hD2D

/-- Adding seconds through the library round trip adds them to the
seconds-since-2000 value, and the result has valid fields. -/
theorem dtAddSecs_spec (t : DateTime) (k : Nat) :
    dtFieldsValid (dtAddSecs t k) ∧ secs2000 (dtAddSecs t k) = secs2000 t + k := by
  have h := fromSecs_spec (secs2000 t + k)
  exact ⟨h.1, h.2.1⟩

theorem windowStart_valid (t : DateTime) (H : Nat) (hv : dtFieldsValid t) (hH : H ≤ 23) :
    dtFieldsValid (windowStart t H) := by
  obtain ⟨h1, h2, h3, h4, _, _, _⟩ := hv
  exact ⟨h1, h2, h3, h4, show H < 24 by omega, show (0 : Nat) < 60 by omega,
    show (0 : Nat) < 60 by omega⟩

theorem secs2000_windowStart (t : DateTime) (H : Nat) :
    secs2000 (windowStart t H) = date2days t.yOff t.m t.d * 86400 + H * 3600 := by
  unfold windowStart secs2000 time2long
  dsimp only
  omega

/-- The sketch's window check agrees with the specification-level
containment `start <= currentTime < end` in seconds. -/
theorem isInWateringWindow_iff (t : DateTime) (H D : Nat)
    (hv : dtFieldsValid t) (hH : H ≤ 23) :
    isInWateringWindow t H D = true ↔ inWindowSpec t H D := by
  have hws := windowStart_valid t H hv hH
  obtain ⟨hendv, hends⟩ := dtAddSecs_spec (windowStart t H) (timeSpanMinutesSecs D)
  have h1 := dtLt_iff_secs t (windowStart t H) hv hws
  have h2 := dtLt_iff_secs t (windowEnd t H D) hv (by unfold windowEnd; exact hendv)
  have hseq : secs2000 (windowEnd t H D) = secs2000 (windowStart t H) + 60 * D := by
    unfold windowEnd
    rw [hends]
    unfold timeSpanMinutesSecs
    omega
  unfold isInWateringWindow inWindowSpec
  rw [Bool.and_eq_true]
  unfold dtGe
  rw [Bool.not_eq_true']
  constructor
  · rintro ⟨hge, hlt⟩
    have hup := h2.mp hlt
    rw [hseq] at hup
    refine ⟨?_, hup⟩
    by_contra hc
    push_neg at hc
    have := h1.mpr hc
    rw [this] at hge
    exact Bool.noConfusion hge
  · rintro ⟨hge, hlt⟩
    refine ⟨?_, h2.mpr (by rw [hseq]; exact hlt)⟩
    cases hb : dtLt t (windowStart t H) with
    | false => rfl
    | true =>
        have := h1.mp hb
        omega

/-- Below the start hour on the same date means before the window start. -/
theorem windowStart_le_iff (t : DateTime) (H : Nat) :
    secs2000 (windowStart t H) ≤ secs2000 t ↔ H * 3600 ≤ secOfDay t := by
  rw [secs2000_decomp t, secs2000_windowStart]
  omega

/-! ### Behaviour of the pump-management functions -/

/-- The disjunction of the three watering windows computed by
`DecideIfWateringRequired`. -/
def wateringDecision (gw : Green_Wall_state) : Bool :=
  isInWateringWindow gw.currentDateTime gw.morningWateringDateTime gw.minutesOfWateringDuration ||
    isInWateringWindow gw.currentDateTime gw.middleWateringDateTime gw.minutesOfWateringDuration ||
    isInWateringWindow gw.currentDateTime gw.eveningWateringDateTime gw.minutesOfWateringDuration

/-- Closed form of `managePump` in this version (rain always false): store
the decision and drive the relay to the same level. -/
theorem managePump_eq (s : SysState) :
    managePump s =
      { s with
          GW := { s.GW with isPumpWorking := wateringDecision s.GW }
          pumpPin := wateringDecision s.GW } := by
  have h : managePump s =
      if (DecideIfWateringRequired s).GW.isPumpWorking then
        PumpOn (DecideIfWateringRequired s)
      else PumpOff (DecideIfWateringRequired s) := rfl
  have hd : (DecideIfWateringRequired s).GW.isPumpWorking = wateringDecision s.GW := rfl
  have hD : DecideIfWateringRequired s =
      { s with GW := { s.GW with isPumpWorking := wateringDecision s.GW } } := rfl
  rw [h, hd, hD]
  cases hb : wateringDecision s.GW with
  | false => rfl
  | true => rfl

/-- The presentation-mode routine never touches the `GW` struct. -/
theorem managePumpPresentationMode_GW (s : SysState) :
    (managePumpPresentationMode s).GW = s.GW := by
  have h : managePumpPresentationMode s =
      if s.GW.currentDateTime.ss % 10 < 5 then PumpOn s else PumpOff s := rfl
  rw [h]
  split <;> rfl

/-- A DHT11 read step keeps both stored float fields non-NaN. -/
theorem readAndDisplayDHT11_not_nan (s : SysState) (humidity temperatureC : FloatVal)
    (hh : isnan s.GW.humidity = false) (ht : isnan s.GW.temperatureC = false) :
    isnan (readAndDisplayDHT11 s humidity temperatureC).GW.humidity = false ∧
      isnan (readAndDisplayDHT11 s humidity temperatureC).GW.temperatureC = false := by
  unfold readAndDisplayDHT11
  split
  · exact ⟨hh, ht⟩
  · rename_i hcond
    rw [Bool.or_eq_true] at hcond
    push_neg at hcond
    constructor
    · show isnan humidity = false
      cases his : isnan humidity with
      | false => rfl
      | true => exact (hcond.2 his).elim
    · show isnan temperatureC = false
      cases his : isnan temperatureC with
      | false => rfl
      | true => exact (hcond.1 his).elim

/-! ### Sample states used as concrete inputs -/

/-- A reachable-style state whose clock reads 2024-06-10 12:00:00, outside
all three configured windows. -/
def noonState : SysState :=
  { setupState with GW := { setupState.GW with currentDateTime := ⟨24, 6, 10, 12, 0, 0⟩ } }

/-! ### The claims -/

/-- C1 counterexample: from the reachable post-`setup()` state (whose clock
second is 0), `managePumpPresentationMode` energizes the relay but leaves
`GW.isPumpWorking` at `false`, so the stored flag and the relay's commanded
state disagree after the call returns. -/
theorem c1_counterexample :
    Reach setupState ∧
      (managePumpPresentationMode setupState).pumpPin = true ∧
      (managePumpPresentationMode setupState).GW.isPumpWorking = false :=
  ⟨Reach.setup, by decide, by decide⟩

/-- C1 (amended): after `managePump` returns, `GW.isPumpWorking` equals the
decision engine's output and equals the level driven onto the pump relay;
`managePumpPresentationMode` does not maintain this consistency (it drives
the relay without updating the flag). -/
theorem c1_managePump_flag_matches_relay (s : SysState) :
    (managePump s).GW.isPumpWorking = wateringDecision s.GW ∧
      (managePump s).pumpPin = (managePump s).GW.isPumpWorking := by
  rw [managePump_eq]
  exact ⟨rfl, rfl⟩

/-- C2: the sketch's watering-window check returns true exactly when the
current time lies in `[start, start + duration)`, with `start` built from
the current date and the start hour; it is true at the inclusive start
(whenever the window is nonempty) and false at the exclusive end. -/
theorem c2_isInWateringWindow_containment (t : DateTime) (H D : Nat)
    (hv : dtValid t) (hH : H ≤ 23) (hD : D ≤ 527040) :
    (isInWateringWindow t H D = true ↔ inWindowSpec t H D) ∧
      (1 ≤ D → secOfDay t = H * 3600 → isInWateringWindow t H D = true) ∧
      (secOfDay t = H * 3600 + 60 * D → isInWateringWindow t H D = false) := by
  obtain ⟨hvf, hy⟩ := hv
  have hiff := isInWateringWindow_iff t H D hvf hH
  have hdec := secs2000_decomp t
  have hws := secs2000_windowStart t H
  refine ⟨hiff, ?_, ?_⟩
  · intro hD1 hsod
    rw [hiff]
    unfold inWindowSpec
    omega
  · intro hsod
    cases hb : isInWateringWindow t H D with
    | false => rfl
    | true =>
        have h2 := hiff.mp hb
        unfold inWindowSpec at h2
        omega

/-- C2 witness: 2024-06-10 06:00:00 against the morning window (hour 6,
five minutes). -/
theorem c2_witness :
    dtValid ⟨24, 6, 10, 6, 0, 0⟩ ∧ (6 : Nat) ≤ 23 ∧ (5 : Nat) ≤ 527040 ∧
      ((isInWateringWindow ⟨24, 6, 10, 6, 0, 0⟩ 6 5 = true ↔
          inWindowSpec ⟨24, 6, 10, 6, 0, 0⟩ 6 5) ∧
        (1 ≤ 5 → secOfDay ⟨24, 6, 10, 6, 0, 0⟩ = 6 * 3600 →
          isInWateringWindow ⟨24, 6, 10, 6, 0, 0⟩ 6 5 = true) ∧
        (secOfDay ⟨24, 6, 10, 6, 0, 0⟩ = 6 * 3600 + 60 * 5 →
          isInWateringWindow ⟨24, 6, 10, 6, 0, 0⟩ 6 5 = false)) :=
  ⟨by decide, by decide, by decide,
    c2_isInWateringWindow_containment ⟨24, 6, 10, 6, 0, 0⟩ 6 5 (by decide) (by decide) (by decide)⟩

/-- C3 counterexample: with the rain branch of `managePump` forced (rain
reported true) on a state whose relay is energized, the call clears the
stored flag but does not drive the relay, so the pump actuator is still on
after the call — the claim's "the pump actuator is off after the call"
fails.  (In this version the branch is even unreachable: `isRainGoing`
always returns false.) -/
theorem c3_counterexample :
    (managePumpWith true (PumpOn setupState)).GW.isPumpWorking = false ∧
      (managePumpWith true (PumpOn setupState)).pumpPin = true := by
  decide

/-- C3 (amended): when the rain indicator reads true, `managePump` sets the
stored pump state to false and returns immediately without writing the
actuator, which therefore keeps its previous commanded level; moreover in
this version `isRainGoing` never reports rain, so the branch never runs. -/
theorem c3_rain_branch_clears_flag_only (s : SysState) :
    managePumpWith true s = { s with GW := { s.GW with isPumpWorking := false } } ∧
      isRainGoing = false :=
  ⟨rfl, rfl⟩

/-- C4: the watering window is anchored to the current timestamp's own
calendar date — the start the check uses is literally the current date at
`H:00:00`; any time before `H:00:00` on its own date is outside the window
(no spillover from the previous day's window), and when `H:00` plus the
duration crosses midnight the computed end lands on a strictly later day
number. -/
theorem c4_window_anchored_to_current_date (t : DateTime) (H D : Nat)
    (hv : dtValid t) (hH : H ≤ 23) (hD : D ≤ 527040) :
    windowStart t H = ⟨t.yOff, t.m, t.d, H, 0, 0⟩ ∧
      (secOfDay t < H * 3600 → isInWateringWindow t H D = false) ∧
      (86400 < H * 3600 + 60 * D →
        date2days t.yOff t.m t.d <
          date2days (windowEnd t H D).yOff (windowEnd t H D).m (windowEnd t H D).d) := by
  obtain ⟨hvf, hy⟩ := hv
  have hiff := isInWateringWindow_iff t H D hvf hH
  have hdec := secs2000_decomp t
  have hws := secs2000_windowStart t H
  refine ⟨rfl, ?_, ?_⟩
  · intro hsod
    cases hb : isInWateringWindow t H D with
    | false => rfl
    | true =>
        have h2 := hiff.mp hb
        unfold inWindowSpec at h2
        omega
  · intro hcross
    have hend := fromSecs_spec (secs2000 (windowStart t H) + timeSpanMinutesSecs D)
    have he : windowEnd t H D =
        fromSecs (secs2000 (windowStart t H) + timeSpanMinutesSecs D) := rfl
    rw [he, hend.2.2]
    unfold timeSpanMinutesSecs
    omega

/-- C4 witness: 2024-06-11 00:30:00 with a window starting at 23:00 the
previous evening and lasting 120 minutes — the check reports false even
though 00:30 lies inside the previous day's spillover. -/
theorem c4_witness :
    dtValid ⟨24, 6, 11, 0, 30, 0⟩ ∧ (23 : Nat) ≤ 23 ∧ (120 : Nat) ≤ 527040 ∧
      (windowStart ⟨24, 6, 11, 0, 30, 0⟩ 23 = ⟨24, 6, 11, 23, 0, 0⟩ ∧
        (secOfDay ⟨24, 6, 11, 0, 30, 0⟩ < 23 * 3600 →
          isInWateringWindow ⟨24, 6, 11, 0, 30, 0⟩ 23 120 = false) ∧
        (86400 < 23 * 3600 + 60 * 120 →
          date2days 24 6 11 <
            date2days (windowEnd ⟨24, 6, 11, 0, 30, 0⟩ 23 120).yOff
              (windowEnd ⟨24, 6, 11, 0, 30, 0⟩ 23 120).m
              (windowEnd ⟨24, 6, 11, 0, 30, 0⟩ 23 120).d)) :=
  ⟨by decide, by decide, by decide,
    c4_window_anchored_to_current_date ⟨24, 6, 11, 0, 30, 0⟩ 23 120
      (by decide) (by decide) (by decide)⟩

/-- C5: `DecideIfWateringRequired` stores exactly the disjunction of the
three window checks (morning, midday, evening, sharing one duration) in
the pump flag, and whenever the current time is outside all three
spec-level windows the stored flag is false. -/
theorem c5_decision_is_threefold_disjunction (s : SysState)
    (hv : dtValid s.GW.currentDateTime)
    (hm : s.GW.morningWateringDateTime ≤ 23)
    (hmid : s.GW.middleWateringDateTime ≤ 23)
    (hev : s.GW.eveningWateringDateTime ≤ 23) :
    ((DecideIfWateringRequired s).GW.isPumpWorking =
        (isInWateringWindow s.GW.currentDateTime s.GW.morningWateringDateTime
            s.GW.minutesOfWateringDuration ||
          isInWateringWindow s.GW.currentDateTime s.GW.middleWateringDateTime
            s.GW.minutesOfWateringDuration ||
          isInWateringWindow s.GW.currentDateTime s.GW.eveningWateringDateTime
            s.GW.minutesOfWateringDuration)) ∧
      (¬ inWindowSpec s.GW.currentDateTime s.GW.morningWateringDateTime
          s.GW.minutesOfWateringDuration →
        ¬ inWindowSpec s.GW.currentDateTime s.GW.middleWateringDateTime
          s.GW.minutesOfWateringDuration →
        ¬ inWindowSpec s.GW.currentDateTime s.GW.eveningWateringDateTime
          s.GW.minutesOfWateringDuration →
        (DecideIfWateringRequired s).GW.isPumpWorking = false) := by
  refine ⟨rfl, ?_⟩
  intro h1 h2 h3
  have w1 : isInWateringWindow s.GW.currentDateTime s.GW.morningWateringDateTime
      s.GW.minutesOfWateringDuration = false := by
    cases hb : isInWateringWindow s.GW.currentDateTime s.GW.morningWateringDateTime
        s.GW.minutesOfWateringDuration with
    | false => rfl
    | true => exact (h1 ((isInWateringWindow_iff _ _ _ hv.1 hm).mp hb)).elim
  have w2 : isInWateringWindow s.GW.currentDateTime s.GW.middleWateringDateTime
      s.GW.minutesOfWateringDuration = false := by
    cases hb : isInWateringWindow s.GW.currentDateTime s.GW.middleWateringDateTime
        s.GW.minutesOfWateringDuration with
    | false => rfl
    | true => exact (h2 ((isInWateringWindow_iff _ _ _ hv.1 hmid).mp hb)).elim
  have w3 : isInWateringWindow s.GW.currentDateTime s.GW.eveningWateringDateTime
      s.GW.minutesOfWateringDuration = false := by
    cases hb : isInWateringWindow s.GW.currentDateTime s.GW.eveningWateringDateTime
        s.GW.minutesOfWateringDuration with
    | false => rfl
    | true => exact (h3 ((isInWateringWindow_iff _ _ _ hv.1 hev).mp hb)).elim
  have he : (DecideIfWateringRequired s).GW.isPumpWorking =
      (isInWateringWindow s.GW.currentDateTime s.GW.morningWateringDateTime
          s.GW.minutesOfWateringDuration ||
        isInWateringWindow s.GW.currentDateTime s.GW.middleWateringDateTime
          s.GW.minutesOfWateringDuration ||
        isInWateringWindow s.GW.currentDateTime s.GW.eveningWateringDateTime
          s.GW.minutesOfWateringDuration) := rfl
  rw [he, w1, w2, w3]
  rfl

/-- C5 witness: at 2024-06-10 12:00:00 with the configured hours 6/13/21
and five-minute duration, the time is outside all three windows and the
stored flag comes out false. -/
theorem c5_witness :
    dtValid noonState.GW.currentDateTime ∧
      noonState.GW.morningWateringDateTime ≤ 23 ∧
      noonState.GW.middleWateringDateTime ≤ 23 ∧
      noonState.GW.eveningWateringDateTime ≤ 23 ∧
      (((DecideIfWateringRequired noonState).GW.isPumpWorking =
          (isInWateringWindow noonState.GW.currentDateTime
              noonState.GW.morningWateringDateTime noonState.GW.minutesOfWateringDuration ||
            isInWateringWindow noonState.GW.currentDateTime
              noonState.GW.middleWateringDateTime noonState.GW.minutesOfWateringDuration ||
            isInWateringWindow noonState.GW.currentDateTime
              noonState.GW.eveningWateringDateTime noonState.GW.minutesOfWateringDuration)) ∧
        (¬ inWindowSpec noonState.GW.currentDateTime
            noonState.GW.morningWateringDateTime noonState.GW.minutesOfWateringDuration →
          ¬ inWindowSpec noonState.GW.currentDateTime
            noonState.GW.middleWateringDateTime noonState.GW.minutesOfWateringDuration →
          ¬ inWindowSpec noonState.GW.currentDateTime
            noonState.GW.eveningWateringDateTime noonState.GW.minutesOfWateringDuration →
          (DecideIfWateringRequired noonState).GW.isPumpWorking = false)) :=
  ⟨by decide, by decide, by decide, by decide,
    c5_decision_is_threefold_disjunction noonState (by decide) (by decide) (by decide) (by decide)⟩

/-- C6: if either fresh DHT11 reading is NaN, the state is left entirely
unchanged except for one diagnostic failure line on the serial log — in
particular the stored humidity and temperature keep their previous values;
if both readings are valid, both are written to the state. -/
theorem c6_nan_reading_discarded (s : SysState) (humidity temperatureC : FloatVal) :
    ((isnan temperatureC || isnan humidity) = true →
        readAndDisplayDHT11 s humidity temperatureC =
          { s with serial := s.serial ++ [SerialMsg.dhtFailMsg] }) ∧
      ((isnan temperatureC || isnan humidity) = false →
        (readAndDisplayDHT11 s humidity temperatureC).GW.humidity = humidity ∧
          (readAndDisplayDHT11 s humidity temperatureC).GW.temperatureC = temperatureC) := by
  constructor
  · intro h
    unfold readAndDisplayDHT11
    rw [if_pos h]
  · intro h
    unfold readAndDisplayDHT11
    rw [if_neg (by rw [h]; exact Bool.false_ne_true)]
    exact ⟨rfl, rfl⟩

/-- C6 witness: a NaN temperature reading leaves the state unchanged apart
from the failure log line; a valid pair is stored. -/
theorem c6_witness :
    ((isnan (none : FloatVal) || isnan (some 55 : FloatVal)) = true ∧
        readAndDisplayDHT11 setupState (some 55) none =
          { setupState with serial := setupState.serial ++ [SerialMsg.dhtFailMsg] }) ∧
      ((isnan (some 21 : FloatVal) || isnan (some 55 : FloatVal)) = false ∧
        (readAndDisplayDHT11 setupState (some 55) (some 21)).GW.humidity = some 55 ∧
          (readAndDisplayDHT11 setupState (some 55) (some 21)).GW.temperatureC = some 21) :=
  ⟨⟨by decide, (c6_nan_reading_discarded setupState (some 55) none).1 (by decide)⟩,
    ⟨by decide, (c6_nan_reading_discarded setupState (some 55) (some 21)).2 (by decide)⟩⟩

/-- C7: presentation mode energizes the pump exactly when the clock second
modulo 10 is below 5, repeats with period 10 seconds irrespective of minute
boundaries, and ignores the configured watering hours and duration. -/
theorem c7_presentation_duty_cycle (s : SysState) :
    (managePumpPresentationMode s).pumpPin =
        decide (s.GW.currentDateTime.ss % 10 < 5) ∧
      (managePumpPresentationMode { s with GW := { s.GW with currentDateTime :=
          { s.GW.currentDateTime with ss := s.GW.currentDateTime.ss + 10 } } }).pumpPin =
        (managePumpPresentationMode s).pumpPin ∧
      ∀ mh mid ev dur : Nat,
        (managePumpPresentationMode { s with GW := { s.GW with
            morningWateringDateTime := mh, middleWateringDateTime := mid,
            eveningWateringDateTime := ev, minutesOfWateringDuration := dur } }).pumpPin =
          (managePumpPresentationMode s).pumpPin := by
  have h : ∀ u : SysState, managePumpPresentationMode u =
      if u.GW.currentDateTime.ss % 10 < 5 then PumpOn u else PumpOff u := fun _ => rfl
  refine ⟨?_, ?_, ?_⟩
  · rw [h]
    split <;> rename_i hc <;> simp [PumpOn, PumpOff, hc]
  · rw [h, h s]
    have hmod : (s.GW.currentDateTime.ss + 10) % 10 = s.GW.currentDateTime.ss % 10 :=
      Nat.add_mod_right _ _
    dsimp only
    rw [hmod]
    split <;> rfl
  · intro mh mid ev dur
    rw [h, h s]
    dsimp only
    split <;> rfl

/-- C8: the rain indicator is hard-coded to false; the analog rain value is
read and logged each cycle but has no effect on any state beyond the log. -/
theorem c8_rain_indicator_stubbed_false :
    isRainGoing = false ∧
      ∀ (s : SysState) (rainValue : Nat),
        readAndDisplayRainSensor s rainValue =
          { s with serial := s.serial ++ [SerialMsg.rainMsg rainValue] } :=
  ⟨rfl, fun _ _ => rfl⟩

/-- C9: the watering decision is deterministic and idempotent — running
`DecideIfWateringRequired` or the whole `managePump` a second time on its
own output changes nothing, neither in the stored state nor on the relay. -/
theorem c9_decision_idempotent (s : SysState) :
    DecideIfWateringRequired (DecideIfWateringRequired s) = DecideIfWateringRequired s ∧
      managePump (managePump s) = managePump s := by
  refine ⟨rfl, ?_⟩
  rw [managePump_eq s, managePump_eq]
  rfl

/-- C10: the stored humidity and temperature are never NaN — they start at
0 and are only overwritten by values that passed the `isnan` check, in
every reachable state. -/
theorem c10_stored_floats_never_nan (s : SysState) (h : Reach s) :
    isnan s.GW.humidity = false ∧ isnan s.GW.temperatureC = false := by
  induction h with
  | setup => exact ⟨rfl, rfl⟩
  | step s now humidity temperatureC rainValue hr ih =>
      show isnan (readAndDisplayDHT11
          (managePumpPresentationMode (readAndDisplayCurrentTime s now))
          humidity temperatureC).GW.humidity = false ∧
        isnan (readAndDisplayDHT11
          (managePumpPresentationMode (readAndDisplayCurrentTime s now))
          humidity temperatureC).GW.temperatureC = false
      apply readAndDisplayDHT11_not_nan
      · rw [managePumpPresentationMode_GW]
        exact ih.1
      · rw [managePumpPresentationMode_GW]
        exact ih.2

/-- C10 witness: the invariant holds at the post-`setup()` state. -/
theorem c10_witness :
    Reach setupState ∧ isnan setupState.GW.humidity = false ∧
      isnan setupState.GW.temperatureC = false :=
  ⟨Reach.setup, (c10_stored_floats_never_nan setupState Reach.setup).1,
    (c10_stored_floats_never_nan setupState Reach.setup).2⟩

end GreenWall
